import Mathlib

/-
Shallow embedding of the ingestion-and-distribution pipeline of the
discord-rag-bot repository (src/process_submission.py, with the same
pipeline mirrored in src/app.py).  External collaborators (the Google
translate provider and the Discord webhook transport) are modelled as
oracle parameters; printing/logging is modelled as returned message lists
where a claim depends on it.
-/

namespace DiscordRagBot

/-- A typed Submission, the dictionary built by `extract_submission_data`
(fields in the fixed 11-column order of the form sheet). -/
structure Submission where
  timestamp : String
  submitter : String
  title : String
  aff_tags : List String
  neg_tags : List String
  source_url : String
  update_date : String
  eng_source : String
  quote : String
  attachment : String
  remark : String
deriving DecidableEq

/-- Auxiliary scanner for Python's `str.split(sep)` with a non-empty
separator: left-to-right, non-overlapping, keeping empty pieces.  The fuel
argument is initialised to the length of the character list and bounds the
recursion (each step consumes at least one character). -/
def pySplitAux (sep : List Char) : Nat → List Char → List Char → List (List Char)
  | _, [], acc => [acc.reverse]
  | 0, _ :: _, acc => [acc.reverse]
  | fuel + 1, c :: cs, acc =>
    if sep.isPrefixOf (c :: cs) then
      acc.reverse :: pySplitAux sep fuel ((c :: cs).drop sep.length) []
    else
      pySplitAux sep fuel cs (c :: acc)

/-- Python's `s.split(sep)` for a non-empty separator (the source only uses
the literal separator `", "`). -/
def pySplit (s sep : String) : List String :=
  (pySplitAux sep.toList s.toList.length s.toList []).map List.asString

/-- `row_data[i].split(', ') if row_data[i] else []` — the tag parsing used
for columns 3 and 4 (Python string truthiness: only `""` is falsy). -/
def parseTags (s : String) : List String :=
  if s = "" then [] else pySplit s (", ")

/-- `extract_submission_data` (process_submission.py lines 148-189, same
body in app.py lines 143-180).  Returns the optional submission together
with the list of printed diagnostic lines.  Index accesses are modelled
fallibly (`row[i]?`), with the catch-all `except` branch taken when any
access is out of range, mirroring the Python `try`/`except`. -/
def extract_submission_data (row_data : List String) :
    Option Submission × List String :=
  if row_data.length < 11 then
    (none, ["Insufficient data in row: " ++ toString row_data.length ++ " columns"])
  else
    match row_data[0]?, row_data[1]?, row_data[2]?, row_data[3]?, row_data[4]?,
          row_data[5]?, row_data[6]?, row_data[7]?, row_data[8]?, row_data[9]?,
          row_data[10]? with
    | some c0, some c1, some c2, some c3, some c4, some c5, some c6, some c7,
      some c8, some c9, some c10 =>
        (some { timestamp := c0, submitter := c1, title := c2,
                aff_tags := parseTags c3, neg_tags := parseTags c4,
                source_url := c5, update_date := c6, eng_source := c7,
                quote := c8, attachment := c9, remark := c10 }, [])
    | _, _, _, _, _, _, _, _, _, _, _ =>
        (none, ["Error extracting submission data: list index out of range"])

/-- Oracle for the Google translate provider
(`self.translate_service.translations().list(...).execute()`):
`Except.error _` models a raised exception, `Except.ok none` a response with
no `translations` field, and `Except.ok (some l)` a response whose
`translations` list carries the `translatedText` values `l`.  Arguments:
source language, target language, text. -/
abbrev Provider : Type := String → String → String → Except String (Option (List String))

/-- Oracle for `requests.post` to the Discord webhook: given the message
content it either raises (`Except.error`) or returns an HTTP status code. -/
abbrev PostOracle : Type := String → Except String Nat

/-- `translate_text` (process_submission.py lines 55-85, identical in
app.py): empty/all-whitespace short circuit, then one provider round trip
whose failure (raised, missing or empty `translations`) falls back to the
original text. -/
def translate_text (provider : Provider) (text source_lang target_lang : String) :
    String :=
  if text = "" || text.toList.all (fun c => c.isWhitespace) then text
  else
    match provider source_lang target_lang text with
    | Except.error _ => text
    | Except.ok none => text
    | Except.ok (some []) => text
    | Except.ok (some (t :: _)) => t

/-- Python truthiness of `data['x_tags'] and data['x_tags'][0]`: the list is
non-empty and its first element is a non-empty string. -/
def tagGuard : List String → Bool
  | [] => false
  | t :: _ => t != ""

/-- The `formatted_content` dictionary prepared by `add_to_docs`. -/
structure FormattedDoc where
  title : String
  tags : String
  remark : String
  table_content : String
  attachment : String
deriving DecidableEq

/-- The `tags_content` accumulation of `add_to_docs` (lines 212-222):
starts at `"#" ++ submitter`, then appends the `[AFF]` group and the
`[NEG]` group, each guarded by Python truthiness of the list and of its
first element, each tag appended as `" #tag"`. -/
def docsTagsContent (data : Submission) : String :=
  let t0 := "#" ++ data.submitter
  let t1 := if tagGuard data.aff_tags then
      data.aff_tags.foldl (fun acc tag => acc ++ " #" ++ tag) (t0 ++ " [AFF]")
    else t0
  if tagGuard data.neg_tags then
    data.neg_tags.foldl (fun acc tag => acc ++ " #" ++ tag) (t1 ++ " [NEG]")
  else t1

/-- `add_to_docs` (process_submission.py lines 191-245): translates the
quote via the provider and assembles the formatted content.  The function
performs no delivery in the source (the Docs API call is left as a
comment); its observable output is the `formatted_content` dictionary. -/
def add_to_docs (provider : Provider) (entry_number : Nat) (data : Submission) :
    FormattedDoc :=
  let original_quote := data.quote
  let translated_quote := translate_text provider original_quote ("ja") ("en")
  let title_content :=
    toString entry_number ++ ". " ++ data.title ++ " (" ++ data.submitter ++ ")"
  let table_content :=
    "[資料番号:" ++ toString entry_number ++ "] " ++ data.update_date ++ ": "
      ++ data.eng_source ++ "\n"
      ++ data.source_url ++ "\n\n"
      ++ "【Original (Japanese)】\n" ++ original_quote ++ "\n\n"
      ++ "【English Translation】\n" ++ translated_quote
  { title := title_content, tags := docsTagsContent data, remark := data.remark,
    table_content := table_content, attachment := data.attachment }

/-- The `tags_text` accumulation of `send_discord_notification`
(lines 262-274): `[AFF]` group with each tag appended as `"#tag "`, a
line break only when BOTH groups pass their guards, then the `[NEG]`
group. -/
def notifTagsText (data : Submission) : String :=
  let t1 := if tagGuard data.aff_tags then
      data.aff_tags.foldl (fun acc tag => acc ++ "#" ++ tag ++ " ") "[AFF]"
    else ""
  let t2 := if tagGuard data.aff_tags && tagGuard data.neg_tags then t1 ++ "\n" else t1
  if tagGuard data.neg_tags then
    data.neg_tags.foldl (fun acc tag => acc ++ "#" ++ tag ++ " ") (t2 ++ "[NEG]")
  else t2

/-- The full Discord payload `content` string built by
`send_discord_notification` (lines 276-305): title line, tags block,
fenced original quote, fenced translated quote, optional remark line,
always-rendered attachment block, and the footer. -/
def discordMessageContent (provider : Provider) (entry_number : Nat)
    (data : Submission) : String :=
  let original_quote := data.quote
  let translated_quote := translate_text provider original_quote ("ja") ("en")
  let tags_text := notifTagsText data
  let attachment_text :=
    "\n添付ファイル：\n" ++ (if data.attachment != "" then data.attachment else "なし")
  let remark_text := if data.remark != "" then "\n※" ++ data.remark else ""
  let message_content :=
    "\n" ++ tags_text ++ "\n\n"
      ++ "```" ++ original_quote ++ "```\n\n"
      ++ "**English Translation:**\n"
      ++ "```" ++ translated_quote ++ "```"
      ++ remark_text
      ++ attachment_text ++ "\n\n"
      ++ "【投稿者】" ++ data.submitter ++ "\n"
      ++ "【引用元】" ++ data.update_date ++ "\n"
      ++ data.source_url
  toString entry_number ++ ". " ++ data.title ++ " (" ++ data.submitter ++ ")\n"
    ++ message_content

instance {ε α : Type} [DecidableEq ε] [DecidableEq α] : DecidableEq (Except ε α) :=
  fun a b =>
    match a, b with
    | Except.error e, Except.error f =>
        if h : e = f then isTrue (by rw [h])
        else isFalse (by intro hh; cases hh; exact h rfl)
    | Except.ok x, Except.ok y =>
        if h : x = y then isTrue (by rw [h])
        else isFalse (by intro hh; cases hh; exact h rfl)
    | Except.error _, Except.ok _ => isFalse (by intro hh; cases hh)
    | Except.ok _, Except.error _ => isFalse (by intro hh; cases hh)

/-- Observable sink deliveries of one row: the docs content prepared by
`add_to_docs`, and the Discord webhook post with its outcome (status code
or raised transport error — both are caught by the function's own
`except`). -/
inductive SinkEffect where
  | docs (content : FormattedDoc)
  | discord (payload : String) (outcome : Except String Nat)
deriving DecidableEq

/-- `send_discord_notification` (process_submission.py lines 247-319):
builds the payload and performs the webhook post; the status-code check
only prints, so the observable effect is the post itself. -/
def send_discord_notification (provider : Provider) (post : PostOracle)
    (entry_number : Nat) (data : Submission) : SinkEffect :=
  SinkEffect.discord (discordMessageContent provider entry_number data)
    (post (discordMessageContent provider entry_number data))

/-- The `structured_entry` dictionary built by `prepare_structured_data`
(process_submission.py lines 321-364), with its nested dictionaries
flattened into fields.  `processed_at` is the wall-clock string
`datetime.now().isoformat()`, supplied as the `now` argument. -/
structure StructuredRecord where
  id : String
  timestamp : String
  submitter : String
  title_original : String
  title_translated : String
  quote_original : String
  quote_translated : String
  tags_affirmative : List String
  tags_negative : List String
  source_url : String
  source_update_date : String
  source_eng_source : String
  meta_attachment : String
  meta_remark : String
  processed_at : String
deriving DecidableEq

/-- `prepare_structured_data` (lines 321-364): two independent
translations (title and quote) and the deterministic id
`"entry_" + row_number`. -/
def prepare_structured_data (provider : Provider) (now : String)
    (data : Submission) (row_number : Nat) : StructuredRecord :=
  let translated_title := translate_text provider data.title ("ja") ("en")
  let translated_quote := translate_text provider data.quote ("ja") ("en")
  { id := "entry_" ++ toString row_number,
    timestamp := data.timestamp, submitter := data.submitter,
    title_original := data.title, title_translated := translated_title,
    quote_original := data.quote, quote_translated := translated_quote,
    tags_affirmative := data.aff_tags, tags_negative := data.neg_tags,
    source_url := data.source_url, source_update_date := data.update_date,
    source_eng_source := data.eng_source,
    meta_attachment := data.attachment, meta_remark := data.remark,
    processed_at := now }

/-- Outcome of `process_submission` for one row: the row number it was
called with, the structured record it appends (if any), and the sink
deliveries it performs, in order. -/
structure RowResult where
  row_index : Nat
  record : Option StructuredRecord
  effects : List SinkEffect
deriving DecidableEq

/-- `process_submission` (process_submission.py lines 119-146): extract;
on failure return with no deliveries and no record; on success call
`add_to_docs(row_number - 1, ...)`, `send_discord_notification(row_number
- 1, ...)` (the `# Adjust for numbering` offset) and append
`prepare_structured_data(submission_data, row_number)`. -/
def process_submission (provider : Provider) (post : PostOracle) (now : String)
    (row_data : List String) (row_number : Nat) : RowResult :=
  match (extract_submission_data row_data).1 with
  | none => { row_index := row_number, record := none, effects := [] }
  | some d =>
      { row_index := row_number,
        record := some (prepare_structured_data provider now d row_number),
        effects := [SinkEffect.docs (add_to_docs provider (row_number - 1) d),
                    send_discord_notification provider post (row_number - 1) d] }

/-- The mutable state of the ingestion loop: `self.last_processed_row`
(initialised to 0) and the `self.structured_data` accumulator. -/
structure LoopState where
  last_processed_row : Nat
  structured_data : List StructuredRecord
deriving DecidableEq

/-- The state set up by `__init__`: offset 0, empty accumulator. -/
def initState : LoopState := { last_processed_row := 0, structured_data := [] }

/-- The 1-based row indices visited by the polling loop `for row_index in
range(max(2, last_processed_row + 1), current_row_count + 1)`. -/
def newRowIndices (last count : Nat) : List Nat :=
  List.range' (max 2 (last + 1)) (count + 1 - max 2 (last + 1))

/-- The per-row results of one polling cycle, in loop order; each visited
index `i` is handed `all_rows[i - 1]` (0-based access) and `i`. -/
def cycle_results (provider : Provider) (post : PostOracle) (now : String)
    (st : LoopState) (all_rows : List (List String)) : List RowResult :=
  (newRowIndices st.last_processed_row all_rows.length).map
    (fun i => process_submission provider post now (all_rows.getD (i - 1) []) i)

/-- One polling cycle of `monitor_spreadsheet` (process_submission.py
lines 87-117): return unchanged when only the header is present; when
`current_row_count > last_processed_row` process the delta rows and set
the offset to the current row count; otherwise do nothing. -/
def monitor_spreadsheet (provider : Provider) (post : PostOracle) (now : String)
    (st : LoopState) (all_rows : List (List String)) :
    LoopState × List RowResult :=
  if all_rows.length ≤ 1 then (st, [])
  else if st.last_processed_row < all_rows.length then
    ({ last_processed_row := all_rows.length,
       structured_data := st.structured_data
         ++ (cycle_results provider post now st all_rows).filterMap
              (fun r => r.record) },
     cycle_results provider post now st all_rows)
  else (st, [])

/-- `run_monitoring_loop` restricted to a finite list of spreadsheet
snapshots, one per polling cycle: folds `monitor_spreadsheet` over the
snapshots and collects each cycle's per-row results. -/
def run_cycles (provider : Provider) (post : PostOracle) (now : String) :
    LoopState → List (List (List String)) → LoopState × List (List RowResult)
  | st, [] => (st, [])
  | st, rows :: more =>
    ((run_cycles provider post now (monitor_spreadsheet provider post now st rows).1 more).1,
     (monitor_spreadsheet provider post now st rows).2
       :: (run_cycles provider post now (monitor_spreadsheet provider post now st rows).1 more).2)

/-! Concrete fixtures used by witnesses and counterexamples -/

/-- The 11-field example row of the end-to-end scenario. -/
def sampleRow : List String :=
  ["2024-01-01", "Alice", "Title1", "t1, t2", "", "http://x", "2024-01-01",
   "Src", "原文", "", "備考"]

/-- The submission extracted from `sampleRow`. -/
def sampleSubmission : Submission :=
  { timestamp := "2024-01-01", submitter := "Alice", title := "Title1",
    aff_tags := ["t1", "t2"], neg_tags := [], source_url := "http://x",
    update_date := "2024-01-01", eng_source := "Src", quote := "原文",
    attachment := "", remark := "備考" }

/-- A 9-field row (extraction must fail). -/
def badRow : List String := ["a", "b", "c", "d", "e", "f", "g", "h", "i"]

/-- A fixed processing timestamp used as the `now` argument in witnesses. -/
def nowStamp : String := "T"

/-- A provider whose every call raises. -/
def failingProvider : Provider := fun _ _ _ => Except.error ("network error")

/-- A provider that echoes the input text as its translation. -/
def echoProvider : Provider := fun _ _ text => Except.ok (some [text])

/-- A webhook transport that always returns the Discord success code 204. -/
def okPost : PostOracle := fun _ => Except.ok 204

/-- A webhook transport whose every call raises. -/
def failingPost : PostOracle := fun _ => Except.error ("connection error")

/-! Helper lemmas -/

/-- Extraction on a row with fewer than 11 fields takes the
insufficient-columns branch. -/
theorem extract_short_spec (row : List String) (h : row.length < 11) :
    extract_submission_data row
      = (none, ["Insufficient data in row: " ++ toString row.length ++ " columns"]) := by
  simp only [extract_submission_data, if_pos h]

/-- Extraction on an explicitly decomposed row of at least 11 fields takes
the success branch, field by field. -/
theorem extract_cons_spec (c0 c1 c2 c3 c4 c5 c6 c7 c8 c9 c10 : String)
    (rest : List String) :
    extract_submission_data (c0::c1::c2::c3::c4::c5::c6::c7::c8::c9::c10::rest)
      = (some { timestamp := c0, submitter := c1, title := c2,
                aff_tags := parseTags c3, neg_tags := parseTags c4,
                source_url := c5, update_date := c6, eng_source := c7,
                quote := c8, attachment := c9, remark := c10 }, []) := by
  have hlen :
      ¬ (c0::c1::c2::c3::c4::c5::c6::c7::c8::c9::c10::rest).length < 11 := by
    simp only [List.length_cons]
    omega
  simp [extract_submission_data, if_neg hlen]

/-- Any list of at least 11 elements decomposes into 11 explicit heads and
a tail. -/
theorem exists_eleven (row : List String) (h : 11 ≤ row.length) :
    ∃ c0 c1 c2 c3 c4 c5 c6 c7 c8 c9 c10 rest,
      row = c0::c1::c2::c3::c4::c5::c6::c7::c8::c9::c10::rest := by
  obtain _ | ⟨c0, row⟩ := row
  · simp at h
  obtain _ | ⟨c1, row⟩ := row
  · simp at h
  obtain _ | ⟨c2, row⟩ := row
  · simp at h
  obtain _ | ⟨c3, row⟩ := row
  · simp at h
  obtain _ | ⟨c4, row⟩ := row
  · simp at h
  obtain _ | ⟨c5, row⟩ := row
  · simp at h
  obtain _ | ⟨c6, row⟩ := row
  · simp at h
  obtain _ | ⟨c7, row⟩ := row
  · simp at h
  obtain _ | ⟨c8, row⟩ := row
  · simp at h
  obtain _ | ⟨c9, row⟩ := row
  · simp at h
  obtain _ | ⟨c10, row⟩ := row
  · simp at h
  exact ⟨c0, c1, c2, c3, c4, c5, c6, c7, c8, c9, c10, row, rfl⟩

/-! Claims C4, C5, C10, C6 -/

/-- C4: for every row with at least 11 fields, extraction succeeds and the
resulting Submission's eleven attributes equal the row's fields at
positions 0-10 in the fixed order, with the tag fields at indices 3 and 4
split on the literal separator ", " and an empty tag field yielding an
empty tag sequence; in particular "" yields [], "a, b" yields ["a","b"]
and "a" yields ["a"]. -/
theorem extract_positional (c0 c1 c2 c3 c4 c5 c6 c7 c8 c9 c10 : String)
    (rest : List String) :
    (extract_submission_data (c0::c1::c2::c3::c4::c5::c6::c7::c8::c9::c10::rest)).1
      = some { timestamp := c0, submitter := c1, title := c2,
               aff_tags := if c3 = "" then [] else pySplit c3 (", "),
               neg_tags := if c4 = "" then [] else pySplit c4 (", "),
               source_url := c5, update_date := c6, eng_source := c7,
               quote := c8, attachment := c9, remark := c10 }
    ∧ parseTags ("") = [] ∧ parseTags ("a, b") = ["a", "b"] ∧ parseTags ("a") = ["a"] := by
  refine ⟨?_, by decide, by decide, by decide⟩
  rw [extract_cons_spec]
  simp [parseTags]

/-- C5: for every row with fewer than 11 fields, extraction fails, carries
the observed field count in its diagnostic, and produces no Submission. -/
theorem extract_insufficient_columns (row : List String) (h : row.length < 11) :
    extract_submission_data row
      = (none, ["Insufficient data in row: " ++ toString row.length ++ " columns"]) :=
  extract_short_spec row h

/-- Witness for C5 at a concrete 9-field row. -/
theorem extract_insufficient_columns_w :
    badRow.length < 11
    ∧ extract_submission_data badRow = (none, ["Insufficient data in row: 9 columns"]) :=
  ⟨by decide, extract_insufficient_columns badRow (by decide)⟩

/-- C10: extraction is total over all finite rows (every branch returns a
value, never raising): under the length guard the success branch is always
taken with an empty diagnostic log (the internal exception branch is
unreachable), and extra fields beyond the first 11 are ignored — the
result equals extraction of the row's first 11 fields. -/
theorem extract_total_any_row (row : List String) :
    (11 ≤ row.length →
      (extract_submission_data row).1.isSome = true
      ∧ (extract_submission_data row).2 = [])
    ∧ extract_submission_data row = extract_submission_data (row.take 11) := by
  constructor
  · intro h
    obtain ⟨c0, c1, c2, c3, c4, c5, c6, c7, c8, c9, c10, rest, rfl⟩ :=
      exists_eleven row h
    rw [extract_cons_spec]
    exact ⟨rfl, rfl⟩
  · by_cases h : 11 ≤ row.length
    · obtain ⟨c0, c1, c2, c3, c4, c5, c6, c7, c8, c9, c10, rest, rfl⟩ :=
        exists_eleven row h
      have htake :
          (c0::c1::c2::c3::c4::c5::c6::c7::c8::c9::c10::rest).take 11
            = c0::c1::c2::c3::c4::c5::c6::c7::c8::c9::c10::([] : List String) := by
        simp [List.take_succ_cons]
      rw [htake, extract_cons_spec, extract_cons_spec]
    · have hrow : row.take 11 = row := List.take_of_length_le (by omega)
      rw [hrow]

/-- Witness for C10 at a 12-field row. -/
theorem extract_total_any_row_w :
    11 ≤ (sampleRow ++ ["extra"]).length
    ∧ (extract_submission_data (sampleRow ++ ["extra"])).1.isSome = true
    ∧ extract_submission_data (sampleRow ++ ["extra"])
        = extract_submission_data ((sampleRow ++ ["extra"]).take 11) :=
  ⟨by decide, ((extract_total_any_row (sampleRow ++ ["extra"])).1 (by decide)).1,
   (extract_total_any_row (sampleRow ++ ["extra"])).2⟩

/-- C6: whenever the provider call raises, or its response lacks a
non-empty `translations` field, `translate_text` returns the original text
unchanged (and, being a total function into `String`, never propagates the
failure to its caller). -/
theorem translate_fallback_to_original (provider : Provider)
    (text source_lang target_lang : String)
    (h : (∃ e, provider source_lang target_lang text = Except.error e)
        ∨ provider source_lang target_lang text = Except.ok none
        ∨ provider source_lang target_lang text = Except.ok (some [])) :
    translate_text provider text source_lang target_lang = text := by
  unfold translate_text
  split
  · rfl
  · rcases h with ⟨e, he⟩ | he | he <;> rw [he]

/-- Witness for C6: a provider that raises on every call leaves a concrete
non-empty text unchanged. -/
theorem translate_fallback_to_original_w :
    translate_text failingProvider ("こんにちは") ("ja") ("en") = "こんにちは" :=
  translate_fallback_to_original failingProvider ("こんにちは") ("ja") ("en")
    (Or.inl ⟨"network error", rfl⟩)

/-! Claims C3, C1, C9 -/

/-- C3 counterexample: with the sequence number, the submission and every
caller-supplied input fixed, the document-entry content and the
notification text still change when only the translation provider's
behavior changes — the formatting operations call the translator
themselves rather than receiving translated text from the caller. -/
theorem formatting_calls_translator_cex :
    add_to_docs echoProvider 1 sampleSubmission
        ≠ add_to_docs (fun _ _ _ => Except.ok (some ["Original text"])) 1 sampleSubmission
    ∧ discordMessageContent echoProvider 1 sampleSubmission
        ≠ discordMessageContent (fun _ _ _ => Except.ok (some ["Original text"])) 1
            sampleSubmission := by
  decide

/-- C3 amended: the formatting operations invoke the translator internally
on the quote (`send_discord_notification` additionally performs the
webhook post); given providers that agree on the quote's translation, two
calls with identical sequence number and submission produce byte-identical
document content and byte-identical notification text. -/
theorem formatting_deterministic (p1 p2 : Provider) (n : Nat) (d : Submission)
    (h : translate_text p1 d.quote ("ja") ("en") = translate_text p2 d.quote ("ja") ("en")) :
    add_to_docs p1 n d = add_to_docs p2 n d
    ∧ discordMessageContent p1 n d = discordMessageContent p2 n d := by
  constructor
  · simp only [add_to_docs]
    rw [h]
  · simp only [discordMessageContent]
    rw [h]

/-- Witness for the amended C3: a raising provider and an echoing provider
agree on the sample quote (both yield the original text), so the two
formatted outputs coincide. -/
theorem formatting_deterministic_w :
    add_to_docs failingProvider 3 sampleSubmission
        = add_to_docs echoProvider 3 sampleSubmission
    ∧ discordMessageContent failingProvider 3 sampleSubmission
        = discordMessageContent echoProvider 3 sampleSubmission :=
  formatting_deterministic failingProvider echoProvider 3 sampleSubmission (by decide)

/-- C1 counterexample: for the first data row (spreadsheet row number 2)
the loop's `process_submission` titles the document entry and notification
with ordinal 1 (`row_number - 1`) while the structured record it appends
is keyed `entry_2` (`row_number`) — the two ordinals differ. -/
theorem display_vs_export_ordinal_cex :
    (add_to_docs failingProvider (2 - 1) sampleSubmission).title = "1. Title1 (Alice)"
    ∧ (process_submission failingProvider okPost nowStamp sampleRow 2).effects.head?
        = some (SinkEffect.docs (add_to_docs failingProvider (2 - 1) sampleSubmission))
    ∧ ((process_submission failingProvider okPost nowStamp sampleRow 2).record.map
        (fun r => r.id)) = some ("entry_2")
    ∧ ("entry_2" : String) ≠ "entry_1" := by
  decide

/-- C1 amended: for every successfully extracted row handed to
`process_submission` with spreadsheet row number `n`, the document-entry
and notification title lines carry the ordinal `n - 1` while the appended
StructuredRecord's id is `"entry_" ++ n` — the export ordinal is the
display ordinal plus one, not the same number. -/
theorem display_vs_export_ordinal (provider : Provider) (post : PostOracle)
    (now : String) (row_data : List String) (n : Nat) (d : Submission)
    (h : (extract_submission_data row_data).1 = some d) :
    (process_submission provider post now row_data n).effects.head?
        = some (SinkEffect.docs (add_to_docs provider (n - 1) d))
    ∧ (add_to_docs provider (n - 1) d).title
        = toString (n - 1) ++ ". " ++ d.title ++ " (" ++ d.submitter ++ ")"
    ∧ (process_submission provider post now row_data n).record.map (fun r => r.id)
        = some ("entry_" ++ toString n) := by
  unfold process_submission
  rw [h]
  exact ⟨rfl, rfl, rfl⟩

/-- Witness for the amended C1 at the sample row with row number 2. -/
theorem display_vs_export_ordinal_w :
    (extract_submission_data sampleRow).1 = some sampleSubmission
    ∧ (add_to_docs failingProvider (2 - 1) sampleSubmission).title
        = "1. Title1 (Alice)"
    ∧ (process_submission failingProvider okPost nowStamp sampleRow 2).record.map
        (fun r => r.id) = some ("entry_2") :=
  ⟨by decide,
   by
     rw [(display_vs_export_ordinal failingProvider okPost nowStamp sampleRow 2
       sampleSubmission (by decide)).2.1]
     decide,
   (display_vs_export_ordinal failingProvider okPost nowStamp sampleRow 2
     sampleSubmission (by decide)).2.2⟩

/-- C9: for every successfully extracted row, `process_submission` always
performs both sink deliveries — the document-content preparation and the
webhook post — and appends the row's StructuredRecord, whatever the
outcome of either delivery or of any translator call (the statement
quantifies over arbitrary provider and webhook oracles, including ones
that raise on every call). -/
theorem deliveries_independent (provider : Provider) (post : PostOracle)
    (now : String) (row_data : List String) (row_number : Nat) (d : Submission)
    (h : (extract_submission_data row_data).1 = some d) :
    (process_submission provider post now row_data row_number).effects
        = [SinkEffect.docs (add_to_docs provider (row_number - 1) d),
           send_discord_notification provider post (row_number - 1) d]
    ∧ (process_submission provider post now row_data row_number).record
        = some (prepare_structured_data provider now d row_number) := by
  unfold process_submission
  rw [h]
  exact ⟨rfl, rfl⟩

/-- Witness for C9: with a provider and a webhook transport that raise on
every call, both deliveries are still attempted and the record is still
appended. -/
theorem deliveries_independent_w :
    (extract_submission_data sampleRow).1 = some sampleSubmission
    ∧ (process_submission failingProvider failingPost nowStamp sampleRow 5).effects
        = [SinkEffect.docs (add_to_docs failingProvider 4 sampleSubmission),
           send_discord_notification failingProvider failingPost 4 sampleSubmission]
    ∧ (process_submission failingProvider failingPost nowStamp sampleRow 5).record
        = some (prepare_structured_data failingProvider nowStamp sampleSubmission 5) :=
  ⟨by decide,
   (deliveries_independent failingProvider failingPost nowStamp sampleRow 5
     sampleSubmission (by decide)).1,
   (deliveries_independent failingProvider failingPost nowStamp sampleRow 5
     sampleSubmission (by decide)).2⟩

/-! Claim C7 -/

/-- Unrolling the notification tag loop `tags_text += f"#{tag} "`. -/
theorem notif_tag_foldl (l : List String) (init : String) :
    l.foldl (fun acc tag => acc ++ "#" ++ tag ++ " ") init
      = init ++ (l.map (fun t => "#" ++ t ++ " ")).foldr (fun a b => a ++ b) "" := by
  induction l generalizing init with
  | nil => simp
  | cons t ts ih =>
      simp only [List.foldl_cons, List.map_cons, List.foldr_cons]
      rw [ih]
      simp [String.append_assoc]

/-- Unrolling the document tag loop `tags_content += f" #{tag}"`. -/
theorem docs_tag_foldl (l : List String) (init : String) :
    l.foldl (fun acc tag => acc ++ " #" ++ tag) init
      = init ++ (l.map (fun t => " #" ++ t)).foldr (fun a b => a ++ b) "" := by
  induction l generalizing init with
  | nil => simp
  | cons t ts ih =>
      simp only [List.foldl_cons, List.map_cons, List.foldr_cons]
      rw [ih]
      simp [String.append_assoc]

/-- A submission carrying both an affirmative and a negative tag. -/
def bothTagsSubmission : Submission :=
  { timestamp := "", submitter := "Alice", title := "", aff_tags := ["a"],
    neg_tags := ["b"], source_url := "", update_date := "", eng_source := "",
    quote := "", attachment := "", remark := "" }

/-- C7 counterexample: a submission on which both tag groups render shows
that in the document tags line the `[AFF]` and `[NEG]` groups are
separated by a single space, with no line break anywhere — the line-break
separation exists only in the notification text. -/
theorem docs_tags_no_line_break_cex :
    docsTagsContent bothTagsSubmission = "#Alice [AFF] #a [NEG] #b"
    ∧ (docsTagsContent bothTagsSubmission).toList.all (fun c => c != '\n') = true
    ∧ notifTagsText bothTagsSubmission = "[AFF]#a \n[NEG]#b " := by
  decide

/-- C7 amended: in both outputs each tag group renders exactly when its
tag sequence is non-empty with a non-empty first element (so a group whose
first element is "" — e.g. produced by the raw field ", b" — renders
nothing); in the notification text the two groups, when both render, are
separated by a line break, while in the document tags line they are
appended side by side after `"#" ++ submitter` with no line break. -/
theorem tag_group_rendering (d : Submission) :
    notifTagsText d
      = (if tagGuard d.aff_tags then
           "[AFF]" ++ (d.aff_tags.map (fun t => "#" ++ t ++ " ")).foldr
             (fun a b => a ++ b) ""
         else "")
        ++ (if tagGuard d.aff_tags && tagGuard d.neg_tags then "\n" else "")
        ++ (if tagGuard d.neg_tags then
              "[NEG]" ++ (d.neg_tags.map (fun t => "#" ++ t ++ " ")).foldr
                (fun a b => a ++ b) ""
            else "")
    ∧ docsTagsContent d
      = "#" ++ d.submitter
        ++ (if tagGuard d.aff_tags then
              " [AFF]" ++ (d.aff_tags.map (fun t => " #" ++ t)).foldr
                (fun a b => a ++ b) ""
            else "")
        ++ (if tagGuard d.neg_tags then
              " [NEG]" ++ (d.neg_tags.map (fun t => " #" ++ t)).foldr
                (fun a b => a ++ b) ""
            else "")
    ∧ parseTags (", b") = ["", "b"] ∧ tagGuard (parseTags (", b")) = false := by
  refine ⟨?_, ?_, by decide, by decide⟩
  · unfold notifTagsText
    by_cases hA : tagGuard d.aff_tags = true <;> by_cases hB : tagGuard d.neg_tags = true
    all_goals simp only [hA, hB, Bool.true_and, Bool.false_and, if_true, if_false,
      Bool.not_eq_true, Bool.false_eq_true, ite_true, ite_false, notif_tag_foldl]
    all_goals simp only [String.append_assoc, String.append_empty, String.empty_append]
  · unfold docsTagsContent
    by_cases hA : tagGuard d.aff_tags = true <;> by_cases hB : tagGuard d.neg_tags = true
    all_goals simp only [hA, hB, Bool.true_and, Bool.false_and, if_true, if_false,
      Bool.not_eq_true, Bool.false_eq_true, ite_true, ite_false, docs_tag_foldl]
    all_goals simp only [String.append_assoc, String.append_empty, String.empty_append]

/-! Ingestion-loop lemmas -/

/-- Membership in the polling delta: exactly the 1-based indices in
`(last, count]` clamped to start at 2. -/
theorem mem_newRowIndices (last count i : Nat) :
    i ∈ newRowIndices last count ↔ last < i ∧ 2 ≤ i ∧ i ≤ count := by
  unfold newRowIndices
  rw [List.mem_range'_1]
  omega

/-- The delta is empty when the sheet holds only the header or when no new
rows have appeared. -/
theorem newRowIndices_eq_nil (last count : Nat) (h : count ≤ 1 ∨ count ≤ last) :
    newRowIndices last count = [] := by
  unfold newRowIndices
  have hz : count + 1 - max 2 (last + 1) = 0 := by omega
  rw [hz]
  simp

/-- `process_submission` reports the row number it was called with. -/
theorem process_submission_row_index (provider : Provider) (post : PostOracle)
    (now : String) (row_data : List String) (n : Nat) :
    (process_submission provider post now row_data n).row_index = n := by
  cases hd : (extract_submission_data row_data).1 <;>
    simp [process_submission, hd]

/-- The row indices touched by one cycle's per-row results are exactly the
delta indices. -/
theorem cycle_results_map_index (provider : Provider) (post : PostOracle)
    (now : String) (st : LoopState) (all_rows : List (List String)) :
    (cycle_results provider post now st all_rows).map (fun r => r.row_index)
      = newRowIndices st.last_processed_row all_rows.length := by
  unfold cycle_results
  rw [List.map_map]
  have hcomp :
      ((fun r : RowResult => r.row_index)
          ∘ fun i => process_submission provider post now (all_rows.getD (i - 1) []) i)
        = id := by
    funext i
    exact process_submission_row_index provider post now (all_rows.getD (i - 1) []) i
  rw [hcomp, List.map_id]

/-- The branch of `monitor_spreadsheet` that actually processes rows. -/
theorem monitor_spreadsheet_taken (provider : Provider) (post : PostOracle)
    (now : String) (st : LoopState) (all_rows : List (List String))
    (h1 : 1 < all_rows.length) (h2 : st.last_processed_row < all_rows.length) :
    monitor_spreadsheet provider post now st all_rows
      = ({ last_processed_row := all_rows.length,
           structured_data := st.structured_data
             ++ (cycle_results provider post now st all_rows).filterMap
                  (fun r => r.record) },
         cycle_results provider post now st all_rows) := by
  unfold monitor_spreadsheet
  rw [if_neg (by omega), if_pos h2]

/-- Row indices of any cycle's results, through `monitor_spreadsheet`. -/
theorem monitor_results_map_index (provider : Provider) (post : PostOracle)
    (now : String) (st : LoopState) (all_rows : List (List String)) :
    ((monitor_spreadsheet provider post now st all_rows).2).map
        (fun r => r.row_index)
      = newRowIndices st.last_processed_row all_rows.length := by
  unfold monitor_spreadsheet
  split
  · rename_i h
    rw [newRowIndices_eq_nil _ _ (Or.inl h)]
    rfl
  split
  · exact cycle_results_map_index provider post now st all_rows
  · rename_i h1 h2
    rw [newRowIndices_eq_nil _ _ (Or.inr (by omega))]
    rfl

/-- The offset never decreases across a cycle. -/
theorem monitor_last_mono (provider : Provider) (post : PostOracle)
    (now : String) (st : LoopState) (all_rows : List (List String)) :
    st.last_processed_row
      ≤ (monitor_spreadsheet provider post now st all_rows).1.last_processed_row := by
  unfold monitor_spreadsheet
  split
  · exact le_refl _
  split
  · rename_i h1 h2
    exact le_of_lt h2
  · exact le_refl _

/-- A cycle either processes nothing or ends with the offset equal to the
row count. -/
theorem monitor_last_of_results (provider : Provider) (post : PostOracle)
    (now : String) (st : LoopState) (all_rows : List (List String)) :
    (monitor_spreadsheet provider post now st all_rows).2 = []
    ∨ (monitor_spreadsheet provider post now st all_rows).1.last_processed_row
        = all_rows.length := by
  unfold monitor_spreadsheet
  split
  · exact Or.inl rfl
  split
  · exact Or.inr rfl
  · exact Or.inl rfl

/-- Every row processed in a cycle lies strictly after the incoming offset
and at or before the outgoing offset. -/
theorem monitor_result_bounds (provider : Provider) (post : PostOracle)
    (now : String) (st : LoopState) (all_rows : List (List String)) :
    ∀ r ∈ (monitor_spreadsheet provider post now st all_rows).2,
      st.last_processed_row < r.row_index
      ∧ r.row_index
          ≤ (monitor_spreadsheet provider post now st all_rows).1.last_processed_row
      ∧ 2 ≤ r.row_index := by
  intro r hr
  have hmap : r.row_index
      ∈ ((monitor_spreadsheet provider post now st all_rows).2).map
          (fun r => r.row_index) :=
    List.mem_map_of_mem _ hr
  rw [monitor_results_map_index, mem_newRowIndices] at hmap
  obtain ⟨h1, h2, h3⟩ := hmap
  refine ⟨h1, ?_, h2⟩
  rcases monitor_last_of_results provider post now st all_rows with hres | hres
  · rw [hres] at hr
    cases hr
  · omega

/-- Every row processed in any later cycle lies strictly after the offset
held before that run of cycles started. -/
theorem run_cycles_lower (provider : Provider) (post : PostOracle) (now : String) :
    ∀ (snaps : List (List (List String))) (st : LoopState),
      ∀ resl ∈ (run_cycles provider post now st snaps).2, ∀ r ∈ resl,
        st.last_processed_row < r.row_index := by
  intro snaps
  induction snaps with
  | nil =>
      intro st resl h
      simp [run_cycles] at h
  | cons rows more ih =>
      intro st resl hresl r hr
      simp only [run_cycles, List.mem_cons] at hresl
      rcases hresl with h | h
      · subst h
        exact (monitor_result_bounds provider post now st rows r hr).1
      · have h2 := ih (monitor_spreadsheet provider post now st rows).1 resl h r hr
        have h3 := monitor_last_mono provider post now st rows
        omega

/-- Across a run of polling cycles, the per-cycle sets of processed row
indices are pairwise disjoint: no row index is processed twice. -/
theorem run_cycles_disjoint (provider : Provider) (post : PostOracle) (now : String) :
    ∀ (snaps : List (List (List String))) (st : LoopState),
      List.Pairwise
        (fun a b => ∀ i, i ∈ a.map (fun r : RowResult => r.row_index)
            → i ∉ b.map (fun r : RowResult => r.row_index))
        ((run_cycles provider post now st snaps).2) := by
  intro snaps
  induction snaps with
  | nil =>
      intro st
      simp [run_cycles]
  | cons rows more ih =>
      intro st
      simp only [run_cycles]
      refine List.Pairwise.cons ?_ (ih _)
      intro b hb i hia hib
      obtain ⟨r, hr, hri⟩ := List.mem_map.mp hia
      obtain ⟨r', hr', hri'⟩ := List.mem_map.mp hib
      have hub := (monitor_result_bounds provider post now st rows r hr).2.1
      have hlb := run_cycles_lower provider post now more
        (monitor_spreadsheet provider post now st rows).1 b hb r' hr'
      omega

/-! Claims C2 and C8 -/

/-- C2: within one run, the offset starts at 0 and never decreases; each
cycle processes exactly the rows with 1-based index in
`(last_processed_row, current_row_count]` clamped to start at row 2; a
cycle that saw new rows ends with the offset equal to the current row
count; a cycle whose row count is unchanged processes zero rows and leaves
the state untouched; and across any run of cycles no row index is
processed twice. -/
theorem ingestion_offset_invariants :
    initState.last_processed_row = 0
    ∧ (∀ (provider : Provider) (post : PostOracle) (now : String) (st : LoopState)
        (rows : List (List String)),
        st.last_processed_row
          ≤ (monitor_spreadsheet provider post now st rows).1.last_processed_row)
    ∧ (∀ (provider : Provider) (post : PostOracle) (now : String) (st : LoopState)
        (rows : List (List String)),
        ((monitor_spreadsheet provider post now st rows).2).map
            (fun r => r.row_index)
          = newRowIndices st.last_processed_row rows.length)
    ∧ (∀ last count i,
        i ∈ newRowIndices last count ↔ last < i ∧ 2 ≤ i ∧ i ≤ count)
    ∧ (∀ (provider : Provider) (post : PostOracle) (now : String) (st : LoopState)
        (rows : List (List String)),
        st.last_processed_row < rows.length → 2 ≤ rows.length →
        (monitor_spreadsheet provider post now st rows).1.last_processed_row
          = rows.length)
    ∧ (∀ (provider : Provider) (post : PostOracle) (now : String) (st : LoopState)
        (rows : List (List String)),
        rows.length = st.last_processed_row →
        monitor_spreadsheet provider post now st rows = (st, []))
    ∧ (∀ (provider : Provider) (post : PostOracle) (now : String) (st : LoopState)
        (snaps : List (List (List String))),
        List.Pairwise
          (fun a b => ∀ i, i ∈ a.map (fun r : RowResult => r.row_index)
              → i ∉ b.map (fun r : RowResult => r.row_index))
          ((run_cycles provider post now st snaps).2)) := by
  refine ⟨rfl, monitor_last_mono, monitor_results_map_index, mem_newRowIndices,
    ?_, ?_, fun provider post now st snaps =>
      run_cycles_disjoint provider post now snaps st⟩
  · intro provider post now st rows hlt hlen
    rw [monitor_spreadsheet_taken provider post now st rows (by omega) hlt]
  · intro provider post now st rows heq
    unfold monitor_spreadsheet
    split
    · rfl
    split
    · rename_i h1 h2
      exact absurd h2 (by omega)
    · rfl

/-- Witness for C2: a first cycle over a header plus two data rows
processes rows 2 and 3 and advances the offset to 3; a second cycle on the
unchanged sheet processes nothing and leaves the state unchanged. -/
theorem ingestion_offset_invariants_w :
    (monitor_spreadsheet failingProvider okPost nowStamp initState
        [["h"], badRow, badRow]).1.last_processed_row = 3
    ∧ ((monitor_spreadsheet failingProvider okPost nowStamp initState
        [["h"], badRow, badRow]).2).map (fun r => r.row_index) = [2, 3]
    ∧ monitor_spreadsheet failingProvider okPost nowStamp
        (monitor_spreadsheet failingProvider okPost nowStamp initState
          [["h"], badRow, badRow]).1 [["h"], badRow, badRow]
        = ((monitor_spreadsheet failingProvider okPost nowStamp initState
            [["h"], badRow, badRow]).1, []) := by
  refine ⟨ingestion_offset_invariants.2.2.2.2.1 failingProvider okPost nowStamp initState
      [["h"], badRow, badRow] (by decide) (by decide),
    ?_, ?_⟩
  · rw [ingestion_offset_invariants.2.2.1 failingProvider okPost nowStamp initState
      [["h"], badRow, badRow]]
    decide
  · refine ingestion_offset_invariants.2.2.2.2.2.1 failingProvider okPost nowStamp _
      [["h"], badRow, badRow] ?_
    rw [ingestion_offset_invariants.2.2.2.2.1 failingProvider okPost nowStamp initState
      [["h"], badRow, badRow] (by decide) (by decide)]

/-- C8: a row whose extraction fails (fewer than 11 fields) is still
counted toward the offset advance — the cycle ends with the offset equal
to the row count — contributes a per-row result with no record and no
delivery attempts, does not stop the other delta rows from being visited,
and the cycle's appended records are exactly the successful rows'. -/
theorem malformed_row_skipped (provider : Provider) (post : PostOracle)
    (now : String) (st : LoopState) (rows : List (List String)) (j : Nat)
    (h2 : 2 ≤ j) (hlast : st.last_processed_row < j) (hj : j ≤ rows.length)
    (hbad : (rows.getD (j - 1) []).length < 11) :
    (monitor_spreadsheet provider post now st rows).1.last_processed_row
        = rows.length
    ∧ ({ row_index := j, record := none, effects := [] } : RowResult)
        ∈ (monitor_spreadsheet provider post now st rows).2
    ∧ ((monitor_spreadsheet provider post now st rows).2).map
          (fun r => r.row_index)
        = newRowIndices st.last_processed_row rows.length
    ∧ (monitor_spreadsheet provider post now st rows).1.structured_data
        = st.structured_data
          ++ ((monitor_spreadsheet provider post now st rows).2).filterMap
              (fun r => r.record) := by
  have hlen : 1 < rows.length := by omega
  have hlt : st.last_processed_row < rows.length := by omega
  have hnone : (extract_submission_data (rows.getD (j - 1) [])).1 = none := by
    rw [extract_short_spec _ hbad]
  have hproc : process_submission provider post now (rows.getD (j - 1) []) j
      = { row_index := j, record := none, effects := [] } := by
    unfold process_submission
    rw [hnone]
  rw [monitor_spreadsheet_taken provider post now st rows hlen hlt]
  refine ⟨rfl, ?_, ?_, rfl⟩
  · unfold cycle_results
    exact List.mem_map.mpr
      ⟨j, (mem_newRowIndices st.last_processed_row rows.length j).mpr
          ⟨hlast, h2, hj⟩, hproc⟩
  · rw [cycle_results_map_index]

/-- Witness for C8: the sheet holds a header, one well-formed row and one
9-field row; the cycle advances the offset to 3, visits rows 2 and 3, and
appends a record only for the well-formed row. -/
theorem malformed_row_skipped_w :
    (monitor_spreadsheet failingProvider okPost nowStamp initState
        [["h"], sampleRow, badRow]).1.last_processed_row = 3
    ∧ ({ row_index := 3, record := none, effects := [] } : RowResult)
        ∈ (monitor_spreadsheet failingProvider okPost nowStamp initState
            [["h"], sampleRow, badRow]).2 :=
  ⟨(malformed_row_skipped failingProvider okPost nowStamp initState
      [["h"], sampleRow, badRow] 3 (by decide) (by decide) (by decide) (by decide)).1,
   (malformed_row_skipped failingProvider okPost nowStamp initState
      [["h"], sampleRow, badRow] 3 (by decide) (by decide) (by decide) (by decide)).2.1⟩

end DiscordRagBot
